import Mathlib

/-!
Verification of the FD-PD biomechanical fall-risk pipeline.

Shallow embedding of the core logic of `js/detectors.js` and `js/kalman.js`
(the second, Kalman-filter-based revision of the detectors module, which is
the one the specification describes).  JavaScript floating-point numbers are
modelled as exact rationals where no transcendental function occurs, and as
real numbers where the source uses `Math.hypot` / `Math.acos`.
-/

namespace FDPD

/-- A pose landmark as produced by the external pose model:
normalized position plus a detection-confidence score. -/
structure LandmarkQ where
  x : ℚ
  y : ℚ
  z : ℚ
  visibility : ℚ
deriving DecidableEq

/-- A full per-frame pose sample: 33 landmarks, indexed by the fixed
skeletal topology (hips 23/24, knees 25/26, ankles 27/28, ...). -/
abbrev LandmarksQ := Fin 33 → LandmarkQ

namespace KalmanFilter

/-- Process-noise constant `qVal = 0.01` from the `KalmanFilter` constructor
(`js/kalman.js`): the diagonal of `Q`. -/
def qVal : ℚ := 1/100

/-- Measurement-noise constant `rVal = 0.05` from the `KalmanFilter`
constructor: the diagonal of `R`. -/
def rVal : ℚ := 1/20

/-- The mutable state of one `KalmanFilter` instance: the 6-dimensional
state vector `x = [x, y, z, vx, vy, vz]` and the diagonal of the error
covariance `P`.  The source initializes `P` to the identity matrix and
thereafter only ever reads or writes its diagonal entries `P[i][i]`
(in `predict` and `updateScalar`), so the diagonal is a faithful model. -/
structure KFState where
  x : Fin 6 → ℚ
  P : Fin 6 → ℚ

/-- `constructor(initialState)`: state starts at the measured position with
zero velocity; `P` starts as the identity, so its diagonal is all ones. -/
def init (initialState : LandmarkQ) : KFState :=
  { x := ![initialState.x, initialState.y, initialState.z, 0, 0, 0]
    P := fun _ => 1 }

/-- `predict()`: advance each position component by the matching velocity
component (unit time-step), then add the process noise `Q[i][i]` to every
diagonal entry of `P`. -/
def predict (s : KFState) : KFState :=
  { x := ![s.x 0 + s.x 3, s.x 1 + s.x 4, s.x 2 + s.x 5, s.x 3, s.x 4, s.x 5]
    P := fun i => s.P i + qVal }

/-- Position index in the 6-dimensional state for axis `idx` (0=x, 1=y, 2=z). -/
def posIdx (idx : Fin 3) : Fin 6 := ⟨idx.val, by omega⟩

/-- Velocity index `idx + 3` in the 6-dimensional state for axis `idx`. -/
def velIdx (idx : Fin 3) : Fin 6 := ⟨idx.val + 3, by omega⟩

/-- The innovation covariance `S = P_pos + R` computed in `updateScalar`;
it is used directly (unclamped) as the divisor of the Kalman gain. -/
def innovationCov (P_pos : ℚ) : ℚ := P_pos + rVal

/-- `updateScalar(idx, measuredVal)`: the per-axis scalar Kalman update.
Innovation `y = measuredVal - x[idx]`, innovation covariance `S = P_pos + R`,
gains `K_pos = P_pos / S` and `K_vel = 0.5 * P_pos / S`; corrects position by
`K_pos * y`, velocity by `K_vel * y`, and rescales the two touched covariance
diagonal entries by `(1 - K_pos)` and `(1 - K_vel)`. -/
def updateScalar (s : KFState) (idx : Fin 3) (measuredVal : ℚ) : KFState :=
  let pi := posIdx idx
  let vi := velIdx idx
  let P_pos := s.P pi
  let P_vel := s.P vi
  let y := measuredVal - s.x pi
  let S := innovationCov P_pos
  let K_pos := P_pos / S
  let K_vel := 1/2 * P_pos / S
  { x := Function.update (Function.update s.x pi (s.x pi + K_pos * y)) vi
           (s.x vi + K_vel * y)
    P := Function.update (Function.update s.P pi ((1 - K_pos) * P_pos)) vi
           ((1 - K_vel) * P_vel) }

/-- `update(measurement)`: scalar updates for the X, Y and Z axes in turn. -/
def update (s : KFState) (measurement : LandmarkQ) : KFState :=
  updateScalar (updateScalar (updateScalar s 0 measurement.x) 1 measurement.y)
    2 measurement.z

/-- `forecast(frames)`: linear extrapolation by velocity; does not mutate. -/
def forecast (s : KFState) (frames : ℚ) : LandmarkQ :=
  { x := s.x 0 + s.x 3 * frames
    y := s.x 1 + s.x 4 * frames
    z := s.x 2 + s.x 5 * frames
    visibility := 1 }

/-- One externally visible call on a `KalmanFilter` instance. -/
inductive KFCall where
  | predictCall : KFCall
  | updateCall : LandmarkQ → KFCall

/-- Apply one call to a filter state. -/
def applyCall (s : KFState) : KFCall → KFState
  | KFCall.predictCall => predict s
  | KFCall.updateCall m => update s m

/-- Run a sequence of `predict` / `update` calls from a given state. -/
def exec (s : KFState) : List KFCall → KFState
  | [] => s
  | c :: cs => exec (applyCall s c) cs

/-- All six diagonal entries of the error covariance are non-negative. -/
def covNonneg (s : KFState) : Prop := ∀ i : Fin 6, 0 ≤ s.P i

end KalmanFilter

open KalmanFilter

/-- The per-joint body of the smoothing loop in `onPoseResults`
(`js/detectors.js`): `filter.predict()` followed by `filter.update(lm)`,
performed for every landmark of the frame with no condition on the
landmark's visibility. -/
def processJoint (f : KFState) (lm : LandmarkQ) : KFState :=
  KalmanFilter.update (KalmanFilter.predict f) lm

/-- One frame of the pose smoother over all 33 filters: each filter is
advanced with `processJoint` on its corresponding landmark. -/
def smootherStep (filters : Fin 33 → KFState) (lms : LandmarksQ) :
    Fin 33 → KFState :=
  fun i => processJoint (filters i) (lms i)

/-- The module-level mutable state of `js/detectors.js` that the frame
handler `onPoseResults` touches (rendering and timing state omitted). -/
structure PipelineState where
  kalmanFilters : List KFState
  previousLandmarks : Option LandmarksQ
  previousVelocityY : ℚ
  fallFrameCount : ℕ
  lowVisibilityFrameCount : ℕ

/-- The `else` branch of `onPoseResults` taken when
`results.poseLandmarks` is absent (no subject detected): it increments the
low-visibility counter, resets `fallFrameCount` to 0, and stores the absent
landmarks as `previousLandmarks`; the Kalman filters and
`previousVelocityY` are not touched. -/
def onPoseResultsNoSubject (s : PipelineState) : PipelineState :=
  { s with
    lowVisibilityFrameCount := s.lowVisibilityFrameCount + 1
    fallFrameCount := 0
    previousLandmarks := none }

/-- `checkFreefall(landmarks)` from `js/detectors.js`, with the module
variables `previousLandmarks` and `previousVelocityY` passed explicitly and
the written-back `previousVelocityY` returned as the second component.
When there is no previous frame it returns `false` before reading or
writing the velocity baseline.  Otherwise `dy` is the hip-center vertical
displacement, `accel = dy - previousVelocityY`, the baseline becomes `dy`,
and freefall holds iff `accel > 0.015` and `dy > 0.02`. -/
def checkFreefall (prev : Option LandmarksQ) (landmarks : LandmarksQ)
    (previousVelocityY : ℚ) : Bool × ℚ :=
  match prev with
  | none => (false, previousVelocityY)
  | some p =>
    let currentY := ((landmarks 23).y + (landmarks 24).y) / 2
    let prevY := ((p 23).y + (p 24).y) / 2
    let dy := currentY - prevY
    let accel := dy - previousVelocityY
    (decide (accel > 3/200) && decide (dy > 1/50), dy)

/-- Hip-center vertical coordinate: mean of landmarks 23 and 24. -/
def hipCenterY (lms : LandmarksQ) : ℚ := ((lms 23).y + (lms 24).y) / 2

/-- `calculateImpact(landmarks)`: hip-center vertical displacement `dy`
between the current and previous frame; returns `1.0` when no previous
frame exists or `dy ≤ 0.015`, else `1.0 + (dy - 0.015) * 30`. -/
def calculateImpact (prev : Option LandmarksQ) (landmarks : LandmarksQ) : ℚ :=
  match prev with
  | none => 1
  | some p =>
    let dy := hipCenterY landmarks - hipCenterY p
    if dy > 3/200 then 1 + (dy - 3/200) * 30 else 1

/-- Spine posture classification produced by `calculateSpineHealth`. -/
inductive SpineStatus where
  | Good : SpineStatus
  | Poor : SpineStatus
deriving DecidableEq

/-- The composite fall-risk computation of `analyzePose`
(`js/detectors.js`): `kneeRisk = max(0, 140 - effectiveAngle)`,
`stabilityRisk = 100 - stabilityScore`, `envRisk = currentEnvRisk * 100`,
weighted sum `kneeRisk*0.3 + stabilityRisk*0.4 + envRisk*0.2`, then the
freefall override to 100, then the `+10` poor-spine penalty, then the final
clamp to `[0, 100]` - in exactly this order. -/
def riskIndex (effectiveAngle stabilityScore currentEnvRisk : ℚ)
    (isFreefall : Bool) (spineHealth : SpineStatus) : ℚ :=
  let kneeRisk := max 0 (140 - effectiveAngle)
  let stabilityRisk := 100 - stabilityScore
  let envRisk := currentEnvRisk * 100
  let r0 := kneeRisk * (3/10) + stabilityRisk * (4/10) + envRisk * (2/10)
  let r1 := if isFreefall then 100 else r0
  let r2 := if spineHealth = SpineStatus.Poor then r1 + 10 else r1
  min 100 (max 0 r2)

/-- `FALL_TRIGGER_FRAMES = 60` (about two seconds at 30 fps). -/
def FALL_TRIGGER_FRAMES : ℕ := 60

/-- One frame of the fall-confirmation logic of `analyzePose`: if the
geometric fall test holds or `riskIndex >= 95`, increment `fallFrameCount`
and emit the alarm exactly when the counter becomes equal to
`FALL_TRIGGER_FRAMES`; otherwise reset the counter to 0 and emit nothing.
Returns the new counter and whether the alarm fired this frame. -/
def fallDetectStep (fallFrameCount : ℕ) (isFallen : Bool)
    (riskIndex : ℚ) : ℕ × Bool :=
  if isFallen || decide (riskIndex ≥ 95) then
    (fallFrameCount + 1, decide (fallFrameCount + 1 = FALL_TRIGGER_FRAMES))
  else
    (0, false)

/-- Run the fall-confirmation logic over a sequence of frames, each frame
given as its geometric-fall flag and composite risk; returns the per-frame
alarm emissions. -/
def fallDetectRun (fallFrameCount : ℕ) : List (Bool × ℚ) → List Bool
  | [] => []
  | (f, r) :: rest =>
    (fallDetectStep fallFrameCount f r).2 ::
      fallDetectRun (fallDetectStep fallFrameCount f r).1 rest

/-- Final fall counter after running a sequence of frames. -/
def fallCountAfter (fallFrameCount : ℕ) : List (Bool × ℚ) → ℕ
  | [] => fallFrameCount
  | (f, r) :: rest => fallCountAfter (fallDetectStep fallFrameCount f r).1 rest

section RealGeometry

open scoped Classical

/-- A 3D point for the world-landmark angle math (real-valued because the
source uses `Math.sqrt` / `Math.acos` here). -/
structure P3 where
  x : ℝ
  y : ℝ
  z : ℝ

/-- `calculateAngle(a, b, c)` from `js/detectors.js`: the angle at vertex
`b` between the vectors `b -> a` and `b -> c`, via the dot-product /
arc-cosine formula, in degrees.  Returns 180 if any input point is missing
(`!a || !b || !c`) or if the product of the two vector magnitudes is zero. -/
noncomputable def calculateAngle (a b c : Option P3) : ℝ :=
  match a, b, c with
  | some a, some b, some c =>
    let v1 : P3 := ⟨a.x - b.x, a.y - b.y, a.z - b.z⟩
    let v2 : P3 := ⟨c.x - b.x, c.y - b.y, c.z - b.z⟩
    let dot := v1.x * v2.x + v1.y * v2.y + v1.z * v2.z
    let mag1 := Real.sqrt (v1.x * v1.x + v1.y * v1.y + v1.z * v1.z)
    let mag2 := Real.sqrt (v2.x * v2.x + v2.y * v2.y + v2.z * v2.z)
    if mag1 * mag2 = 0 then 180
    else Real.arccos (dot / (mag1 * mag2)) * (180 / Real.pi)
  | _, _, _ => 180

/-- A real-valued landmark, for the support-classification math that uses
`Math.hypot`. -/
structure LandmarkR where
  x : ℝ
  y : ℝ
  z : ℝ
  visibility : ℝ

/-- A real-valued 33-landmark frame. -/
abbrev LandmarksR := Fin 33 → LandmarkR

/-- `getDist(i1, i2)` from `analyzePose`: planar distance
(`Math.hypot`) between two landmarks of the current frame. -/
noncomputable def getDist (lms : LandmarksR) (i1 i2 : Fin 33) : ℝ :=
  Real.sqrt (((lms i1).x - (lms i2).x) ^ 2 + ((lms i1).y - (lms i2).y) ^ 2)

/-- Left shin segment length: knee 25 to ankle 27. -/
noncomputable def leftShin (lms : LandmarksR) : ℝ := getDist lms 25 27

/-- Right shin segment length: knee 26 to ankle 28. -/
noncomputable def rightShin (lms : LandmarksR) : ℝ := getDist lms 26 28

/-- `avgShin`: mean of the two shin lengths, recomputed every frame. -/
noncomputable def avgShin (lms : LandmarksR) : ℝ :=
  (leftShin lms + rightShin lms) / 2

/-- `groundLevel`: the larger (lower on screen) of the two ankle
y-coordinates. -/
noncomputable def groundLevel (lms : LandmarksR) : ℝ :=
  max (lms 27).y (lms 28).y

/-- `DYNAMIC_THRESHOLD = avgShin * 0.3`: the grounding tolerance, 30% of
the average shin length. -/
noncomputable def dynamicThreshold (lms : LandmarksR) : ℝ :=
  avgShin lms * (3/10)

/-- `isLeftGrounded`: the left ankle lies within the dynamic threshold of
the ground level. -/
def isLeftGrounded (lms : LandmarksR) : Prop :=
  (lms 27).y > groundLevel lms - dynamicThreshold lms

/-- `isRightGrounded`: the right ankle lies within the dynamic threshold of
the ground level. -/
def isRightGrounded (lms : LandmarksR) : Prop :=
  (lms 28).y > groundLevel lms - dynamicThreshold lms

/-- `STABILITY_FRAMES = 10`: frames of near-zero foot velocity needed to
call an elevated foot stable. -/
def STABILITY_FRAMES : ℕ := 10

/-- `isLeftSupported = isLeftGrounded || (leftFootStabilityTimer > STABILITY_FRAMES)`. -/
def isLeftSupported (lms : LandmarksR) (leftFootStabilityTimer : ℕ) : Prop :=
  isLeftGrounded lms ∨ leftFootStabilityTimer > STABILITY_FRAMES

/-- `isRightSupported = isRightGrounded || (rightFootStabilityTimer > STABILITY_FRAMES)`. -/
def isRightSupported (lms : LandmarksR) (rightFootStabilityTimer : ℕ) : Prop :=
  isRightGrounded lms ∨ rightFootStabilityTimer > STABILITY_FRAMES

/-- The `effectiveAngle` selection of `analyzePose` (before the
hand-support bonus): 180 when sitting; otherwise the minimum knee angle
over supported legs, one leg's angle if only that leg is supported, and
the initialized default 180 when neither leg is supported. -/
noncomputable def effectiveAngleBase (isSitting suppL suppR : Prop)
    (leftKneeAngle rightKneeAngle : ℝ) : ℝ :=
  if isSitting then 180
  else if suppL ∧ suppR then min leftKneeAngle rightKneeAngle
  else if suppL then leftKneeAngle
  else if suppR then rightKneeAngle
  else 180

end RealGeometry

/-- A frame whose 33 landmarks all sit at height `y` (used as concrete
test input). -/
def constFrameQ (y : ℚ) : LandmarksQ := fun _ => ⟨0, y, 0, 1⟩

/-- A freshly constructed filter at the origin (concrete test input). -/
def f0 : KFState := init ⟨0, 0, 0, 1⟩

/-- A landmark with zero visibility (an effectively absent joint). -/
def lm0 : LandmarkQ := ⟨1, 1, 1, 0⟩

/-- A hypothetical filter state whose x-position covariance has drifted
negative (not reachable from `init`; used to probe the clamping claim). -/
def badKFState : KFState :=
  { x := fun _ => 0
    P := fun i => if i = posIdx 0 then -1 else 1 }

/-- A concrete pipeline state: one filter, a non-zero stored velocity
baseline and a non-zero fall counter. -/
def s0 : PipelineState :=
  { kalmanFilters := [init ⟨0, 0, 0, 1⟩]
    previousLandmarks := none
    previousVelocityY := 1/2
    fallFrameCount := 7
    lowVisibilityFrameCount := 0 }

/-- A concrete 3D point (used as degenerate-angle test input). -/
noncomputable def pt0 : P3 := ⟨0, 0, 0⟩

/-- A concrete real-valued frame: both ankles (27, 28) at height `0.9`,
every other landmark (knees included) at height `0.5`, all on the same
vertical, so both shins have positive length. -/
noncomputable def frameR0 : LandmarksR := fun i =>
  if i.val ≥ 27 then ⟨0, 9/10, 0, 1⟩ else ⟨0, 1/2, 0, 1⟩

/-!
## Theorems
-/

/-- C1: the composite risk is the weighted sum
`kneeRisk*0.3 + stabilityRisk*0.4 + envRisk*0.2` with
`kneeRisk = max(0, 140 - effectiveAngle)`, then unconditionally forced to
100 on a freefall frame, then raised by 10 on a Poor spine, then clamped to
`[0, 100]`, in exactly that order - so every freefall frame emits exactly
100. -/
theorem C1_freefall_forces_composite_100 :
    (∀ (e s v : ℚ) (sp : SpineStatus), riskIndex e s v true sp = 100) ∧
    (∀ (e s v : ℚ) (sp : SpineStatus), riskIndex e s v false sp =
      min 100 (max 0 ((max 0 (140 - e)) * (3/10) + (100 - s) * (4/10) +
        v * 100 * (2/10) + (if sp = SpineStatus.Poor then 10 else 0)))) := by
  constructor
  · intro e s v sp
    cases sp <;> simp [riskIndex]
  · intro e s v sp
    cases sp <;> simp [riskIndex]

/-- C9: `calculateImpact` returns exactly 1 when there is no previous
frame or the hip-center drop `dy` is at most `0.015`, returns
`1 + (dy - 0.015) * 30` when `dy > 0.015`, and is strictly increasing in
`dy` on that region. -/
theorem C9_calculateImpact_piecewise_monotone :
    (∀ lms : LandmarksQ, calculateImpact none lms = 1) ∧
    (∀ p lms : LandmarksQ, hipCenterY lms - hipCenterY p ≤ 3/200 →
      calculateImpact (some p) lms = 1) ∧
    (∀ p lms : LandmarksQ, 3/200 < hipCenterY lms - hipCenterY p →
      calculateImpact (some p) lms =
        1 + (hipCenterY lms - hipCenterY p - 3/200) * 30) ∧
    (∀ p lms lms2 : LandmarksQ, 3/200 < hipCenterY lms - hipCenterY p →
      hipCenterY lms - hipCenterY p < hipCenterY lms2 - hipCenterY p →
      calculateImpact (some p) lms < calculateImpact (some p) lms2) := by
  refine ⟨fun lms => rfl, fun p lms h => ?_, fun p lms h => ?_, ?_⟩
  · simp only [calculateImpact]
    rw [if_neg (not_lt.mpr h)]
  · simp only [calculateImpact]
    rw [if_pos h]
  · intro p lms lms2 h1 h2
    simp only [calculateImpact]
    rw [if_pos h1, if_pos (lt_trans h1 h2)]
    linarith

/-- C9 witness: a concrete descent with `dy = 0.1` versus `dy = 0.2`. -/
theorem C9_witness :
    3/200 < hipCenterY (constFrameQ (1/10)) - hipCenterY (constFrameQ 0) ∧
    hipCenterY (constFrameQ (1/10)) - hipCenterY (constFrameQ 0) <
      hipCenterY (constFrameQ (2/10)) - hipCenterY (constFrameQ 0) ∧
    calculateImpact (some (constFrameQ 0)) (constFrameQ (1/10)) <
      calculateImpact (some (constFrameQ 0)) (constFrameQ (2/10)) :=
  ⟨by norm_num [hipCenterY, constFrameQ], by norm_num [hipCenterY, constFrameQ],
    C9_calculateImpact_piecewise_monotone.2.2.2 (constFrameQ 0)
      (constFrameQ (1/10)) (constFrameQ (2/10))
      (by norm_num [hipCenterY, constFrameQ])
      (by norm_num [hipCenterY, constFrameQ])⟩

/-- C5: per axis, `updateScalar` computes innovation
`m - predicted position`, innovation covariance `S = P_pos + rVal`, gain
`K = P_pos / S`, adds `K * innovation` to the position and
`(0.5 * K) * innovation` to the velocity, and rescales the position and
velocity covariance diagonal entries by `(1 - K)` and `(1 - 0.5 * K)`. -/
theorem C5_updateScalar_formulas :
    ∀ (s : KFState) (idx : Fin 3) (m : ℚ),
      (updateScalar s idx m).x (posIdx idx) =
        s.x (posIdx idx) +
          s.P (posIdx idx) / (s.P (posIdx idx) + rVal) *
            (m - s.x (posIdx idx)) ∧
      (updateScalar s idx m).x (velIdx idx) =
        s.x (velIdx idx) +
          1/2 * (s.P (posIdx idx) / (s.P (posIdx idx) + rVal)) *
            (m - s.x (posIdx idx)) ∧
      (updateScalar s idx m).P (posIdx idx) =
        (1 - s.P (posIdx idx) / (s.P (posIdx idx) + rVal)) *
          s.P (posIdx idx) ∧
      (updateScalar s idx m).P (velIdx idx) =
        (1 - 1/2 * (s.P (posIdx idx) / (s.P (posIdx idx) + rVal))) *
          s.P (velIdx idx) := by
  intro s idx m
  have h1 : posIdx idx ≠ velIdx idx := by
    simp only [posIdx, velIdx, ne_eq, Fin.mk.injEq]
    omega
  refine ⟨?_, ?_, ?_, ?_⟩
  · simp [updateScalar, innovationCov, Function.update_apply, h1, h1.symm]
  · simp [updateScalar, innovationCov, Function.update_apply, h1, h1.symm,
      mul_div_assoc]
  · simp [updateScalar, innovationCov, Function.update_apply, h1, h1.symm]
  · simp [updateScalar, innovationCov, Function.update_apply, h1, h1.symm,
      mul_div_assoc]

/-- The freshly constructed filter has an all-ones covariance diagonal. -/
theorem covNonneg_init (p : LandmarkQ) : covNonneg (init p) := by
  intro i
  simp [init]

/-- `predict` adds the positive process noise, preserving non-negativity. -/
theorem covNonneg_predict {s : KFState} (h : covNonneg s) :
    covNonneg (predict s) := by
  intro i
  have := h i
  simp only [predict, qVal]
  linarith

/-- `updateScalar` rescales the two touched covariance entries by factors
in `(0, 1]`, preserving non-negativity. -/
theorem covNonneg_updateScalar {s : KFState} (idx : Fin 3) (m : ℚ)
    (h : covNonneg s) : covNonneg (updateScalar s idx m) := by
  intro i
  have hp := h (posIdx idx)
  have hv := h (velIdx idx)
  have hS : (0 : ℚ) < s.P (posIdx idx) + 1/20 := by linarith
  have hK1 : s.P (posIdx idx) / (s.P (posIdx idx) + 1/20) ≤ 1 := by
    rw [div_le_one hS]
    linarith
  have hK0 : 0 ≤ s.P (posIdx idx) / (s.P (posIdx idx) + 1/20) :=
    div_nonneg hp hS.le
  simp only [updateScalar, innovationCov, rVal, Function.update_apply]
  split_ifs with hvi hpi
  · have hKv : 1/2 * s.P (posIdx idx) / (s.P (posIdx idx) + 1/20) ≤ 1 := by
      rw [mul_div_assoc]
      linarith
    exact mul_nonneg (by linarith) hv
  · exact mul_nonneg (by linarith) hp
  · exact h i

/-- `update` is three scalar updates, preserving non-negativity. -/
theorem covNonneg_update {s : KFState} (m : LandmarkQ) (h : covNonneg s) :
    covNonneg (KalmanFilter.update s m) :=
  covNonneg_updateScalar 2 m.z
    (covNonneg_updateScalar 1 m.y (covNonneg_updateScalar 0 m.x h))

/-- Every single call preserves covariance non-negativity. -/
theorem covNonneg_applyCall {s : KFState} (c : KFCall) (h : covNonneg s) :
    covNonneg (applyCall s c) := by
  cases c with
  | predictCall => exact covNonneg_predict h
  | updateCall m => exact covNonneg_update m h

/-- Any sequence of calls preserves covariance non-negativity. -/
theorem covNonneg_exec {s : KFState} (calls : List KFCall)
    (h : covNonneg s) : covNonneg (exec s calls) := by
  induction calls generalizing s with
  | nil => exact h
  | cons c cs ih => exact ih (covNonneg_applyCall c h)

/-- C7: starting from the constructor state, every sequence of `predict`
and `update` calls keeps all six error-covariance diagonal entries
non-negative after every call. -/
theorem C7_covariance_diagonal_nonneg :
    ∀ (p : LandmarkQ) (calls : List KFCall) (i : Fin 6),
      0 ≤ (exec (init p) calls).P i :=
  fun p calls i => covNonneg_exec calls (covNonneg_init p) i

/-- C6 counterexample: `updateScalar` contains no clamp of the innovation
covariance.  At a (hypothetical) state whose position covariance is `-1`,
the divisor actually used is `innovationCov (-1) = -19/20 < 0`, and the
update goes through with the resulting gain `20/19 > 1` instead of being
clamped to a small positive epsilon (any positive divisor would have
produced a negative gain from the negative covariance, moving the position
away from the measurement rather than past it). -/
theorem C6_counterexample :
    innovationCov (badKFState.P (posIdx 0)) < 0 ∧
    (updateScalar badKFState 0 1).x (posIdx 0) = 20/19 := by
  constructor
  · norm_num [innovationCov, rVal, badKFState]
  · norm_num [updateScalar, innovationCov, rVal, badKFState, posIdx, velIdx,
      Function.update_apply, Fin.ext_iff]

/-- C6 amended: `updateScalar` divides by the unclamped
`S = P_pos + rVal`; nevertheless, from any state with a non-negative
covariance diagonal - and in particular from every state reachable from
the constructor state by `predict` / `update` calls, between which the
non-negativity is preserved step by step - the divisor is strictly
positive, so the Kalman-gain division never divides by zero or by a
negative value. -/
theorem C6_amended_no_clamp_but_divisor_positive :
    (∀ (s : KFState) (idx : Fin 3), covNonneg s →
      0 < innovationCov (s.P (posIdx idx))) ∧
    (∀ (s : KFState) (idx : Fin 3) (m : ℚ), covNonneg s →
      covNonneg (updateScalar s idx m)) ∧
    (∀ (p : LandmarkQ) (calls : List KFCall),
      covNonneg (exec (init p) calls)) := by
  refine ⟨?_, ?_, ?_⟩
  · intro s idx h
    have := h (posIdx idx)
    simp only [innovationCov, rVal]
    linarith
  · intro s idx m h
    exact covNonneg_updateScalar idx m h
  · intro p calls
    exact covNonneg_exec calls (covNonneg_init p)

/-- C6 witness: the amended theorem applied to the constructor state. -/
theorem C6_witness :
    covNonneg (init ⟨0, 0, 0, 1⟩) ∧
    0 < innovationCov ((init ⟨0, 0, 0, 1⟩).P (posIdx 0)) := by
  have hcov : covNonneg (init ⟨0, 0, 0, 1⟩) := by
    intro i
    simp [init]
  exact ⟨hcov, C6_amended_no_clamp_but_divisor_positive.1 _ 0 hcov⟩

/-- Running the fall logic from counter `k` over `n` consecutive frames on
which the fall condition holds, the alarm fires at position `i` exactly
when the counter becomes `FALL_TRIGGER_FRAMES` there. -/
theorem fallDetectRun_replicate (n : ℕ) :
    ∀ (k i : ℕ),
      (fallDetectRun k (List.replicate n (true, 0)))[i]? = some true ↔
        (k + i + 1 = FALL_TRIGGER_FRAMES ∧ i < n) := by
  induction n with
  | zero =>
    intro k i
    simp [fallDetectRun]
  | succ n ih =>
    intro k i
    rw [List.replicate_succ]
    cases i with
    | zero =>
      simp [fallDetectRun, fallDetectStep, FALL_TRIGGER_FRAMES]
    | succ i =>
      simp only [fallDetectRun, fallDetectStep, Bool.true_or, if_true,
        List.getElem?_cons_succ]
      rw [ih]
      omega

/-- C2: the fall counter increments exactly when the geometric fall test
holds or the composite risk is at least 95 and resets to 0 otherwise; the
alarm fires exactly on the frame the counter becomes
`FALL_TRIGGER_FRAMES = 60`, hence exactly once per uninterrupted run of the
condition (at its 60th frame) and never again while the condition keeps
holding. -/
theorem C2_fall_counter_alarm_once :
    (∀ (c : ℕ) (f : Bool) (r : ℚ),
      ((fallDetectStep c f r).1 = c + 1 ↔ (f = true ∨ 95 ≤ r)) ∧
      ((fallDetectStep c f r).1 = 0 ↔ ¬(f = true ∨ 95 ≤ r)) ∧
      ((fallDetectStep c f r).2 = true ↔
        ((f = true ∨ 95 ≤ r) ∧ c + 1 = FALL_TRIGGER_FRAMES))) ∧
    (∀ n i : ℕ,
      (fallDetectRun 0 (List.replicate n (true, 0)))[i]? = some true ↔
        (i = 59 ∧ i < n)) ∧
    FALL_TRIGGER_FRAMES = 60 := by
  refine ⟨?_, ?_, rfl⟩
  · intro c f r
    cases f <;> by_cases hr : (95 : ℚ) ≤ r <;>
      simp [fallDetectStep, hr, FALL_TRIGGER_FRAMES]
  · intro n i
    rw [fallDetectRun_replicate]
    simp only [FALL_TRIGGER_FRAMES]
    omega

/-- C3 counterexample: a joint whose landmark has visibility 0 (below any
positive visibility floor) is still measurement-updated: the per-joint
frame step does not coincide with predict-only coasting. -/
theorem C3_counterexample :
    lm0.visibility = 0 ∧ processJoint f0 lm0 ≠ KalmanFilter.predict f0 := by
  refine ⟨rfl, fun h => ?_⟩
  have h0 : (processJoint f0 lm0).x (posIdx 0) =
      (KalmanFilter.predict f0).x (posIdx 0) :=
    congrArg (fun st => st.x (posIdx 0)) h
  rw [show (processJoint f0 lm0).x (posIdx 0) = 101/106 by
        norm_num [processJoint, KalmanFilter.update, updateScalar, predict,
          innovationCov, rVal, qVal, f0, lm0, init, posIdx, velIdx,
          Function.update_apply, Fin.ext_iff, Matrix.cons_val_zero],
      show (KalmanFilter.predict f0).x (posIdx 0) = 0 by
        norm_num [predict, f0, init, posIdx, Fin.ext_iff,
          Matrix.cons_val_zero]] at h0
  norm_num at h0

/-- C3 amended: the smoother calls `predict()` then `update()` on every
one of the 33 joint filters unconditionally - the landmark's visibility is
never consulted, so the per-joint step's result is independent of it and
no predict-only coasting exists. -/
theorem C3_amended_update_unconditional :
    (∀ (f : KFState) (x y z v w : ℚ),
      processJoint f ⟨x, y, z, v⟩ = processJoint f ⟨x, y, z, w⟩) ∧
    (∀ (filters : Fin 33 → KFState) (lms : LandmarksQ) (i : Fin 33),
      smootherStep filters lms i =
        KalmanFilter.update (KalmanFilter.predict (filters i)) (lms i)) :=
  ⟨fun _ _ _ _ _ _ => rfl, fun _ _ _ => rfl⟩

/-- C4 counterexample: on a frame with no detected subject, the handler
leaves the filters untouched (it does not advance them in predict-only
mode) and leaves the stored velocity baseline `previousVelocityY`
unchanged (it does not reset it), while it does reset the fall counter. -/
theorem C4_counterexample :
    (onPoseResultsNoSubject s0).previousVelocityY ≠ 0 ∧
    (onPoseResultsNoSubject s0).kalmanFilters ≠
      [KalmanFilter.predict (init ⟨0, 0, 0, 1⟩)] ∧
    (onPoseResultsNoSubject s0).fallFrameCount = 0 := by
  refine ⟨by norm_num [onPoseResultsNoSubject, s0], fun h => ?_, rfl⟩
  have h0 : ((onPoseResultsNoSubject s0).kalmanFilters.map
        (fun st => st.P (posIdx 0))) =
      ([KalmanFilter.predict (init ⟨0, 0, 0, 1⟩)].map
        (fun st => st.P (posIdx 0))) := by
    rw [h]
  simp only [onPoseResultsNoSubject, s0, List.map_cons, List.map_nil,
    List.cons.injEq, and_true] at h0
  rw [show (init (⟨0, 0, 0, 1⟩ : LandmarkQ)).P (posIdx 0) = 1 by
        norm_num [init],
      show (KalmanFilter.predict (init ⟨0, 0, 0, 1⟩)).P (posIdx 0) = 101/100 by
        norm_num [predict, init, qVal]] at h0
  norm_num at h0

/-- C4 amended: on a no-subject frame the pipeline resets the fall counter
to 0 and clears the stored previous landmarks - so the next freefall test
returns `false` and leaves the baseline alone - but it does not advance
the joint filters and does not reset the stored velocity baseline. -/
theorem C4_amended_no_subject_frame :
    (∀ s : PipelineState,
      (onPoseResultsNoSubject s).fallFrameCount = 0 ∧
      (onPoseResultsNoSubject s).kalmanFilters = s.kalmanFilters ∧
      (onPoseResultsNoSubject s).previousVelocityY = s.previousVelocityY ∧
      (onPoseResultsNoSubject s).previousLandmarks = none ∧
      (onPoseResultsNoSubject s).lowVisibilityFrameCount =
        s.lowVisibilityFrameCount + 1) ∧
    (∀ (lms : LandmarksQ) (v : ℚ), checkFreefall none lms v = (false, v)) :=
  ⟨fun _ => ⟨rfl, rfl, rfl, rfl, rfl⟩, fun _ _ => rfl⟩

/-- C8: `calculateAngle` is symmetric under swapping its outer arguments,
always returns a value in `[0, 180]` degrees, returns exactly 180 when any
input point is missing, and returns exactly 180 when either of the vectors
from the vertex has zero magnitude (the corresponding endpoint coincides
with the vertex). -/
theorem C8_calculateAngle_symmetric_bounded_default :
    (∀ a b c : Option P3, calculateAngle a b c = calculateAngle c b a) ∧
    (∀ a b c : Option P3,
      0 ≤ calculateAngle a b c ∧ calculateAngle a b c ≤ 180) ∧
    (∀ a b c : Option P3, (a = none ∨ b = none ∨ c = none) →
      calculateAngle a b c = 180) ∧
    (∀ pa pb pc : P3, pa = pb ∨ pc = pb →
      calculateAngle (some pa) (some pb) (some pc) = 180) := by
  refine ⟨?_, ?_, ?_, ?_⟩
  · intro a b c
    rcases a with _ | pa <;> rcases b with _ | pb <;> rcases c with _ | pc <;>
      try rfl
    simp only [calculateAngle]
    ring_nf
  · intro a b c
    have h180 : (0:ℝ) ≤ 180 ∧ (180:ℝ) ≤ 180 := by norm_num
    rcases a with _ | pa
    · exact h180
    rcases b with _ | pb
    · exact h180
    rcases c with _ | pc
    · exact h180
    have hnn : ∀ t : ℝ, 0 ≤ Real.arccos t * (180 / Real.pi) := fun t =>
      mul_nonneg (Real.arccos_nonneg t) (by positivity)
    have hub : ∀ t : ℝ, Real.arccos t * (180 / Real.pi) ≤ 180 := by
      intro t
      calc Real.arccos t * (180 / Real.pi) ≤ Real.pi * (180 / Real.pi) :=
            mul_le_mul_of_nonneg_right (Real.arccos_le_pi t) (by positivity)
        _ = 180 := by field_simp
    simp only [calculateAngle]
    split_ifs
    · exact h180
    · exact ⟨hnn _, hub _⟩
  · intro a b c h
    rcases h with rfl | rfl | rfl
    · rfl
    · rcases a with _ | pa <;> rfl
    · rcases a with _ | pa <;> rcases b with _ | pb <;> rfl
  · intro pa pb pc h
    rcases h with rfl | rfl <;> simp [calculateAngle]

/-- C8 witness: the fully degenerate triple evaluates to 180. -/
theorem C8_witness : calculateAngle (some pt0) (some pt0) (some pt0) = 180 :=
  C8_calculateAngle_symmetric_bounded_default.2.2.2 pt0 pt0 pt0 (Or.inl rfl)

/-- With a positive average shin length, an ankle at the ground level
(the lower of the two) passes the strict grounding test. -/
theorem leftGrounded_of_max_ankle {lms : LandmarksR} (h : 0 < avgShin lms)
    (hle : (lms 28).y ≤ (lms 27).y) : isLeftGrounded lms := by
  simp only [isLeftGrounded, groundLevel, dynamicThreshold]
  rw [max_eq_left hle]
  linarith

/-- Mirror of `leftGrounded_of_max_ankle` for the right ankle. -/
theorem rightGrounded_of_max_ankle {lms : LandmarksR} (h : 0 < avgShin lms)
    (hle : (lms 27).y ≤ (lms 28).y) : isRightGrounded lms := by
  simp only [isRightGrounded, groundLevel, dynamicThreshold]
  rw [max_eq_right hle]
  linarith

/-- With a positive average shin length some leg is always grounded. -/
theorem grounded_or_of_avgShin_pos {lms : LandmarksR} (h : 0 < avgShin lms) :
    isLeftGrounded lms ∨ isRightGrounded lms := by
  rcases le_total (lms 28).y (lms 27).y with hle | hle
  · exact Or.inl (leftGrounded_of_max_ankle h hle)
  · exact Or.inr (rightGrounded_of_max_ankle h hle)

/-- C10: whenever the recomputed average shin length is strictly positive,
the leg whose ankle is lowest in the image is classified grounded, hence
at least one leg is supported and the neither-leg-supported default branch
of the effective-angle selection is unreachable (the selection always
returns one of the three supported branches); with a zero average shin
length, neither leg is classified grounded. -/
theorem C10_support_default_branch_unreachable :
    (∀ lms : LandmarksR, 0 < avgShin lms →
      (((lms 28).y ≤ (lms 27).y → isLeftGrounded lms) ∧
        ((lms 27).y ≤ (lms 28).y → isRightGrounded lms))) ∧
    (∀ lms : LandmarksR, 0 < avgShin lms →
      isLeftGrounded lms ∨ isRightGrounded lms) ∧
    (∀ (lms : LandmarksR) (lTimer rTimer : ℕ), 0 < avgShin lms →
      isLeftSupported lms lTimer ∨ isRightSupported lms rTimer) ∧
    (∀ (lms : LandmarksR) (lTimer rTimer : ℕ) (l r : ℝ), 0 < avgShin lms →
      effectiveAngleBase False (isLeftSupported lms lTimer)
          (isRightSupported lms rTimer) l r = min l r ∨
      effectiveAngleBase False (isLeftSupported lms lTimer)
          (isRightSupported lms rTimer) l r = l ∨
      effectiveAngleBase False (isLeftSupported lms lTimer)
          (isRightSupported lms rTimer) l r = r) ∧
    (∀ lms : LandmarksR, avgShin lms = 0 →
      ¬isLeftGrounded lms ∧ ¬isRightGrounded lms) := by
  refine ⟨?_, ?_, ?_, ?_, ?_⟩
  · intro lms h
    exact ⟨fun hle => leftGrounded_of_max_ankle h hle,
      fun hle => rightGrounded_of_max_ankle h hle⟩
  · intro lms h
    exact grounded_or_of_avgShin_pos h
  · intro lms lTimer rTimer h
    rcases grounded_or_of_avgShin_pos h with hg | hg
    · exact Or.inl (Or.inl hg)
    · exact Or.inr (Or.inl hg)
  · intro lms lTimer rTimer l r h
    have hsup : isLeftSupported lms lTimer ∨ isRightSupported lms rTimer := by
      rcases grounded_or_of_avgShin_pos h with hg | hg
      · exact Or.inl (Or.inl hg)
      · exact Or.inr (Or.inl hg)
    simp only [effectiveAngleBase]
    split_ifs with h1 h2 h3 h4
    · exact absurd h1 not_false
    · exact Or.inl rfl
    · exact Or.inr (Or.inl rfl)
    · exact Or.inr (Or.inr rfl)
    · rcases hsup with hs | hs
      · exact absurd hs h3
      · exact absurd hs h4
  · intro lms h
    constructor
    · simp only [isLeftGrounded, groundLevel, dynamicThreshold, h]
      simp only [zero_mul, sub_zero, not_lt]
      exact le_max_left _ _
    · simp only [isRightGrounded, groundLevel, dynamicThreshold, h]
      simp only [zero_mul, sub_zero, not_lt]
      exact le_max_right _ _

/-- C10 witness: a concrete frame with positive shin length on which some
leg is grounded. -/
theorem C10_witness :
    0 < avgShin frameR0 ∧ (isLeftGrounded frameR0 ∨ isRightGrounded frameR0) := by
  have h25 : frameR0 25 = ⟨0, 1/2, 0, 1⟩ := rfl
  have h26 : frameR0 26 = ⟨0, 1/2, 0, 1⟩ := rfl
  have h27 : frameR0 27 = ⟨0, 9/10, 0, 1⟩ := rfl
  have h28 : frameR0 28 = ⟨0, 9/10, 0, 1⟩ := rfl
  have h : 0 < avgShin frameR0 := by
    simp only [avgShin, leftShin, rightShin, getDist, h25, h26, h27, h28]
    positivity
  exact ⟨h, C10_support_default_branch_unreachable.2.1 frameR0 h⟩

end FDPD
